import Mathlib

/-!
Verification of `scripts/l2pixc_to_rivertile.py` from the SWOT hydrology
toolbox.  The script has two cores: `make_pixc_from_gdem`, a pure
transformation of a ground-truth DEM grid into a sparse pixel cloud, and
`main`, a batch orchestrator that discovers job descriptor files, derives
output paths from their names, optionally synthesizes a GDEM pixel cloud,
invokes an external extraction process, exports shapefiles and writes a
chained annotation file.

The embedding below models numpy arrays as lists (2-D arrays as lists of
row lists), machine floats as rationals, and the orchestrator's side
effects as an explicit event trace.  Python strings are modelled as Lean
strings with hand-rolled structural implementations of the `str.split`,
`os.path.basename`, `os.path.join` and `str.replace` operations the
script uses (the core-library versions do not reduce in the kernel).
-/

namespace L2PixcToRivertile

/-! ### Python string primitives -/

/-- Python `str.split(sep)` for a one-character separator, on character lists:
`"a_b".split("_") = ["a","b"]`, `"".split("_") = [""]`, and separators at
the ends produce empty fields, exactly as in Python. -/
def splitOnChar (sep : Char) : List Char → List (List Char)
  | [] => [[]]
  | c :: cs =>
    match splitOnChar sep cs with
    | [] => [[]]
    | h :: t => if c = sep then [] :: h :: t else (c :: h) :: t

/-- Python `s.split(sep)` for a one-character separator. -/
def pySplit (s : String) (sep : Char) : List String :=
  (splitOnChar sep s.toList).map List.asString

/-- Python `os.path.basename`: the part of the path after the last slash. -/
def basename (p : String) : String := (pySplit p '/').getLastD p

/-- Python `os.path.join(a, b)` (posix flavour): `b` if it is absolute,
otherwise `a`, a slash unless `a` is empty or already ends in one, then `b`. -/
def pyJoin (a b : String) : String :=
  if b.toList.headD ' ' = '/' then b
  else if a = "" then b
  else if a.toList.getLastD ' ' = '/' then a ++ b
  else a ++ "/" ++ b

/-- Python `s.replace(pat, repl)` on lists: replace every non-overlapping
occurrence of `pat`, scanning left to right.  Nonempty patterns only (the
script only replaces the extension `".nc"`). -/
def replaceList [DecidableEq α] (pat repl : List α) : List α → List α
  | [] => []
  | c :: cs =>
    if h : pat ≠ [] ∧ pat.isPrefixOf (c :: cs) then
      repl ++ replaceList pat repl ((c :: cs).drop pat.length)
    else
      c :: replaceList pat repl cs
termination_by l => l.length
decreasing_by
  · simp only [List.length_drop, List.length_cons]
    have : pat.length ≠ 0 := by simpa using List.length_eq_zero.not.mpr h.1
    omega
  · simp

/-- Python `s.replace(pat, repl)`. -/
def pyReplace (s pat repl : String) : String :=
  (replaceList pat.toList repl.toList s.toList).asString

/-! ### Python `arr[::k]` decimation

`sliceAux k c l` keeps the elements of `l` at indices `c, c + k, c + 2k, …`;
`sliceStep k l` is the Python slice `l[::k]` (for `k ≥ 1`). -/

def sliceAux (k : Nat) : Nat → List α → List α
  | _, [] => []
  | 0, x :: xs => x :: sliceAux k (k - 1) xs
  | Nat.succ n, _ :: xs => sliceAux k n xs

/-- Python `l[::k]`: every `k`-th element of `l` starting at index 0. -/
def sliceStep (k : Nat) (l : List α) : List α := sliceAux k 0 l

theorem sliceAux_get? (k : Nat) (hk : 1 ≤ k) (l : List α) :
    ∀ c i, (sliceAux k c l).get? i = l.get? (c + i * k) := by
  induction l with
  | nil => intro c i; simp [sliceAux]
  | cons x xs ih =>
      intro c i
      cases c with
      | zero =>
          cases i with
          | zero => simp [sliceAux]
          | succ j =>
              simp only [sliceAux, List.get?]
              rw [ih (k - 1) j]
              have hs : Nat.succ j * k = j * k + k := Nat.succ_mul j k
              have h : 0 + Nat.succ j * k = (k - 1 + j * k) + 1 := by omega
              rw [h, List.get?]
      | succ n =>
          simp only [sliceAux, List.get?]
          rw [ih n i]
          have h : Nat.succ n + i * k = (n + i * k) + 1 := by omega
          rw [h, List.get?]

theorem sliceAux_length (k : Nat) (hk : 1 ≤ k) (l : List α) :
    ∀ c, (sliceAux k c l).length = (l.length - c + k - 1) / k := by
  induction l with
  | nil =>
      intro c
      simp only [sliceAux, List.length_nil]
      rw [Nat.div_eq_of_lt (by omega)]
  | cons x xs ih =>
      intro c
      cases c with
      | zero =>
          simp only [sliceAux, List.length_cons]
          rw [ih (k - 1)]
          have hr : xs.length + 1 - 0 + k - 1 = xs.length + k := by omega
          rw [hr, Nat.add_div_right _ (by omega)]
          by_cases hc : k - 1 ≤ xs.length
          · have h1 : xs.length - (k - 1) + k - 1 = xs.length := by omega
            rw [h1]
          · have h1 : xs.length - (k - 1) + k - 1 = k - 1 := by omega
            rw [h1, Nat.div_eq_of_lt (by omega), Nat.div_eq_of_lt (by omega)]
      | succ n =>
          simp only [sliceAux, List.length_cons]
          rw [ih n]
          have h : xs.length + 1 - Nat.succ n + k - 1 = xs.length - n + k - 1 := by omega
          rw [h]

theorem mem_sliceAux {x : α} (k : Nat) : ∀ c (l : List α), x ∈ sliceAux k c l → x ∈ l := by
  intro c l
  induction l generalizing c with
  | nil => simp [sliceAux]
  | cons y ys ih =>
      cases c with
      | zero =>
          intro h
          simp only [sliceAux, List.mem_cons] at h ⊢
          rcases h with h | h
          · exact Or.inl h
          · exact Or.inr (ih (k - 1) h)
      | succ n =>
          intro h
          simp only [sliceAux] at h
          exact List.mem_cons_of_mem _ (ih n h)

theorem sliceAux_forall₂ {R : α → β → Prop} (k : Nat) {l₁ : List α} {l₂ : List β}
    (h : List.Forall₂ R l₁ l₂) : ∀ c, List.Forall₂ R (sliceAux k c l₁) (sliceAux k c l₂) := by
  induction h with
  | nil => intro c; simp [sliceAux, List.Forall₂.nil]
  | cons hab htl ih =>
      intro c
      cases c with
      | zero => exact List.Forall₂.cons hab (ih (k - 1))
      | succ n => exact ih n

theorem sliceAux_length_eq {l₁ : List α} {l₂ : List β} (k : Nat)
    (h : l₁.length = l₂.length) : ∀ c, (sliceAux k c l₁).length = (sliceAux k c l₂).length := by
  intro c
  have h2 : List.Forall₂ (fun (_ : α) (_ : β) => True) l₁ l₂ :=
    List.forall₂_of_length_eq_of_get h (fun i h₁ h₂ => trivial)
  exact (sliceAux_forall₂ k h2 c).length_eq

/-! ### numpy boolean-mask selection

`arr[landtype == 1]` flattens `arr` in row-major order and keeps the
entries at the positions where `landtype` equals 1. -/

/-- One row of `arr[landtype == 1]`: keep `arow[j]` where `lrow[j] = 1`. -/
def rowSel : List ℤ → List α → List α
  | _, [] => []
  | [], _ => []
  | v :: vs, a :: as => if v = 1 then a :: rowSel vs as else rowSel vs as

/-- numpy `arr[landtype == 1]` for a 2-D `arr`: row-major flattening of the
per-row selections. -/
def maskSel : List (List ℤ) → List (List α) → List α
  | _, [] => []
  | [], _ => []
  | lr :: lt, ar :: arr => rowSel lr ar ++ maskSel lt arr

/-- Number of water cells (`landtype = 1`) in one grid row. -/
def rowWaterCount (row : List ℤ) : ℕ := row.countP (fun v => decide (v = 1))

/-- Number of water cells (`landtype = 1`) in a 2-D grid. -/
def waterCount (lt : List (List ℤ)) : ℕ := (lt.map rowWaterCount).sum

theorem rowSel_length {α : Type} (lrow : List ℤ) (arow : List α)
    (h : lrow.length ≤ arow.length) :
    (rowSel lrow arow).length = rowWaterCount lrow := by
  induction lrow generalizing arow with
  | nil => cases arow <;> simp [rowSel, rowWaterCount]
  | cons v vs ih =>
      cases arow with
      | nil => simp at h
      | cons a as =>
          simp only [List.length_cons, Nat.add_le_add_iff_right] at h
          simp only [rowSel, rowWaterCount, List.countP_cons]
          by_cases hv : v = 1
          · simp [hv, ih as h, rowWaterCount]
          · simp [hv, ih as h, rowWaterCount]

theorem maskSel_length {α : Type} (lt : List (List ℤ)) (arr : List (List α)) (R : ℕ)
    (hlen : lt.length = arr.length)
    (hlt : ∀ row ∈ lt, row.length = R)
    (harr : ∀ row ∈ arr, R ≤ row.length) :
    (maskSel lt arr).length = waterCount lt := by
  induction lt generalizing arr with
  | nil =>
      cases arr with
      | nil => simp [maskSel, waterCount]
      | cons a as => simp at hlen
  | cons lr ltl ih =>
      cases arr with
      | nil => simp at hlen
      | cons ar arrtl =>
          simp only [List.length_cons, Nat.add_right_cancel_iff] at hlen
          simp only [maskSel, List.length_append, waterCount, List.map_cons, List.sum_cons]
          rw [rowSel_length lr ar (by
                rw [hlt lr (List.mem_cons_self _ _)]
                exact harr ar (List.mem_cons_self _ _))]
          rw [ih arrtl hlen
                (fun row hrow => hlt row (List.mem_cons_of_mem _ hrow))
                (fun row hrow => harr row (List.mem_cons_of_mem _ hrow))]
          rfl

/-! ### The converter `make_pixc_from_gdem`

Faithful transliteration of the body of `make_pixc_from_gdem` (lines
46-117 of the script).  Reading the netCDF inputs is replaced by a record
of the arrays and attributes the function reads; writing the result file
is replaced by returning the record of arrays the function assigns. -/

/-- The arrays and attributes `make_pixc_from_gdem` reads from the gdem
file: 2-D `landtype`, `elevation`, `latitude`, `longitude`, 1-D
`cross_track`, scalars `ground_spacing` and `azimuth_spacing`. -/
structure GdemData where
  landtype : List (List ℤ)
  elevation : List (List ℚ)
  latitude : List (List ℚ)
  longitude : List (List ℚ)
  crossTrack : List ℚ
  groundSpacing : ℚ
  azimuthSpacing : ℚ

/-- The fields `make_pixc_from_gdem` assigns on the output pixel cloud. -/
structure PixcOut where
  description : String
  nrPixels : ℕ
  nrLines : ℕ
  classification : List ℤ
  continuousClassification : List ℚ
  height : List ℚ
  latitude : List ℚ
  longitude : List ℚ
  pixelArea : List ℚ
  crossTrack : List ℚ
  rangeIndex : List ℕ
  azimuthIndex : List ℕ
  illuminationTime : List ℕ
  numRareLooks : List ℚ

/-- The converter `make_pixc_from_gdem`: decimate all grid arrays by `subsample_factor`
in azimuth (`[::subsample_factor, :]`), build `range_index`/`azimuth_index`
and broadcast `cross_track` with `np.meshgrid` (as in the source, the
second `meshgrid` call rebuilds `azimuth_index` with `len(cross_track)`
columns), select the water cells (`landtype == 1`) of every array in
row-major order, then assign the output fields, remapping classification
to the interior-water code 4 with confidence 1.0 and setting a constant
pixel area. -/
def make_pixc_from_gdem (g : GdemData) (subsample_factor : ℕ) : PixcOut :=
  let landtype := sliceStep subsample_factor g.landtype
  let elevation := sliceStep subsample_factor g.elevation
  let lat := sliceStep subsample_factor g.latitude
  let lon := sliceStep subsample_factor g.longitude
  let A := landtype.length
  let R := (landtype.headD []).length
  let range_index := (List.range A).map (fun _ => List.range R)
  let azimuth_index := (List.range A).map (fun a => g.crossTrack.map (fun _ => a))
  let cross_track := (List.range A).map (fun _ => g.crossTrack)
  let classif := maskSel landtype landtype
  let elevationM := maskSel landtype elevation
  let latM := maskSel landtype lat
  let lonM := maskSel landtype lon
  let crossTrackM := maskSel landtype cross_track
  let rangeIndexM := maskSel landtype range_index
  let azimuthIndexM := maskSel landtype azimuth_index
  { description := "gdem water pixels repacked as a pixel cloud"
    nrPixels := R
    nrLines := A
    classification := classif.map (fun c => c * 0 + 4)
    continuousClassification := classif.map (fun (c : ℤ) => (c : ℚ) * 0 + 1)
    height := elevationM
    latitude := latM
    longitude := lonM
    pixelArea := latM.map (fun _ =>
      (0 : ℚ) + g.groundSpacing * g.azimuthSpacing * (subsample_factor : ℚ))
    crossTrack := crossTrackM
    rangeIndex := rangeIndexM
    azimuthIndex := azimuthIndexM
    illuminationTime := azimuthIndexM
    numRareLooks := azimuthIndexM.map (fun _ => (0 : ℚ) + (subsample_factor : ℚ)) }

/-! ### The orchestrator `main`

`main` (lines 132-371) is modelled as a pure step function per descriptor
file plus a fold over the discovered files.  Side effects are recorded as
an event trace; the filesystem, the descriptor contents and the external
process exit codes are inputs (an `Env`).  The Python `return` inside the
loop and the uncaught `CalledProcessError` are modelled as loop signals. -/

/-- The command-line arguments of the script that affect the per-job
control flow (`output_dir`, `parameter_riverobs`, `--riverobs_path`,
`--nogdem`, `--noshp`, `--force`). -/
structure Args where
  outputDir : String
  parameterRiverobs : String
  riverobsPath : Option String
  nogdem : Bool
  noshp : Bool
  force : Bool

/-- The external world `main` consults: `os.path.isfile`, the exit code of
a shell command, the two descriptor keys read per file, and the
`RIVEROBS` environment variable. -/
structure Env where
  isfile : String → Bool
  returncode : String → Int
  l2pixcFile : String → String
  trueGdemFile : String → String
  riverobsEnvVar : String

/-- Python `subprocess.CalledProcessError(p.returncode, p.args)`. -/
structure CalledProcessError where
  returncode : Int
  cmd : String
deriving DecidableEq

/-- The side effects of one orchestrator iteration that the claims talk
about: the informational skip print, a `make_pixc_from_gdem` invocation,
the external extraction run, a shapefile export, and the final chained
annotation write. -/
inductive Event where
  | info (msg : String)
  | makeGdemPixc (gdemFile pixcFile outFile : String) (subsampleFactor : ℕ)
  | runExtraction (cmd : String)
  | shpExport (ncFile shpFile : String)
  | annWrite (file : String) (lines : List String)
deriving DecidableEq

def Event.isShpExport : Event → Bool
  | Event.shpExport _ _ => true
  | _ => false

def Event.isAnnWrite : Event → Bool
  | Event.annWrite _ _ => true
  | _ => false

/-- How one loop iteration ends: fall through to the next file, `return`
from `main`, or an uncaught exception. -/
inductive Signal where
  | next
  | ret
  | raised (e : CalledProcessError)
deriving DecidableEq

/-- Model of `execute(cmd)` (lines 123-129): raise `CalledProcessError(returncode,
cmd)` when the child exits nonzero, otherwise return normally. -/
def execute (rc : Int) (cmd : String) : Except CalledProcessError Unit :=
  if rc ≠ 0 then Except.error ⟨rc, cmd⟩ else Except.ok ()

/-- Python `"%s" % x` for an optional string: `None` prints as `"None"`. -/
def pyFmt : Option String → String
  | none => "None"
  | some s => s

/-- The writer `write_annotation_file` (lines 29-43), as the list of lines written:
three unconditional `key = value` lines, plus the
`pixcvec file from gdem` line exactly when that argument is not `None`. -/
def write_annotation_file (pixcFile : String) (gdemPixc : Option String)
    (pixcvecFile : String) (pixcvecFileGdem : Option String) : List String :=
  ["pixc file = " ++ pixcFile,
   "gdem pixc file = " ++ pyFmt gdemPixc,
   "pixcvec file = " ++ pixcvecFile] ++
  (match pixcvecFileGdem with
   | some s => ["pixcvec file from gdem = " ++ s]
   | none => [])

/-! Output-path derivation (lines 175-222).  The tile identity comes from
`os.path.basename(pixc_ann_file).split(".")[0].split("_")` positions 2-4
(Python raises `IndexError` when the name has fewer fields; the model
returns `""` there, and the naming theorems assume the fields exist). -/

def stemParts (annFile : String) : List String :=
  pySplit ((pySplit (basename annFile) '.').headD "") '_'

def num_cycle (annFile : String) : String := (stemParts annFile).getD 2 ""

def num_orbit (annFile : String) : String := (stemParts annFile).getD 3 ""

def lat_tile (annFile : String) : String := (stemParts annFile).getD 4 ""

/-- The observed-branch output subdirectory `river_dir = <output_dir>/pixc`. -/
def river_dir (outputDir : String) : String := pyJoin outputDir "pixc"

/-- The reference-branch output subdirectory `river_dir_gdem = <output_dir>/gdem`. -/
def river_dir_gdem (outputDir : String) : String := pyJoin outputDir "gdem"

def tile_tag (annFile : String) : String :=
  num_cycle annFile ++ "_" ++ num_orbit annFile ++ "_" ++ lat_tile annFile

def output_riverobs (outputDir annFile : String) : String :=
  pyJoin (river_dir outputDir) ("rivertile_" ++ tile_tag annFile ++ ".nc")

def output_pixcvec (outputDir annFile : String) : String :=
  pyJoin (river_dir outputDir) ("pixcvec_" ++ tile_tag annFile ++ ".nc")

def river_ann_file (outputDir annFile : String) : String :=
  pyJoin outputDir ("river-annotation_" ++ tile_tag annFile ++ ".rdf")

def output_riverobs_gdem (outputDir annFile : String) : String :=
  pyJoin (river_dir_gdem outputDir) ("rivertile_" ++ tile_tag annFile ++ ".nc")

def output_pixcvec_gdem (outputDir annFile : String) : String :=
  pyJoin (river_dir_gdem outputDir) ("pixcvec_" ++ tile_tag annFile ++ ".nc")

/-- The synthetic reference pixel-cloud path `gdem_pixc`,
`<output_dir>/gdem/pixel_cloud_gdem<cycle>-<orbit>_<tile>.nc`. -/
def gdem_pixc_path (outputDir annFile : String) : String :=
  pyJoin (river_dir_gdem outputDir)
    ("pixel_cloud_gdem" ++ num_cycle annFile ++ "-" ++ num_orbit annFile ++ "_"
      ++ lat_tile annFile ++ ".nc")

/-- The extraction program `<riverobs root>/src/bin/swot_pixc2rivertile.py`, the root
coming from `--riverobs_path` or else `os.environ['RIVEROBS']`. -/
def prog_name (env : Env) (args : Args) : String :=
  let root := match args.riverobsPath with
    | some p => p
    | none => env.riverobsEnvVar
  pyJoin (pyJoin (pyJoin root "src") "bin") "swot_pixc2rivertile.py"

/-- The extraction command line (lines 268-272): program, pixc file,
rivertile output, pixcvec output, parameter file. -/
def extraction_cmd (env : Env) (args : Args) (annFile : String) : String :=
  prog_name env args ++ " " ++ env.l2pixcFile annFile ++ " "
    ++ output_riverobs args.outputDir annFile ++ " "
    ++ output_pixcvec args.outputDir annFile ++ " "
    ++ args.parameterRiverobs

/-- The idempotency gate (lines 205-207 and 215-217): skip when `--force`
is not set and both observed-branch outputs already exist. -/
def skip_check (env : Env) (args : Args) (annFile : String) : Bool :=
  !args.force && env.isfile (output_riverobs args.outputDir annFile)
    && env.isfile (output_pixcvec args.outputDir annFile)

/-- The three shapefile exports (lines 305-340), unless `--noshp`. -/
def shp_events (args : Args) (annFile : String) : List Event :=
  if args.noshp then []
  else
    [Event.shpExport (output_riverobs args.outputDir annFile)
       (pyReplace (output_riverobs args.outputDir annFile) ".nc" "_node.shp"),
     Event.shpExport (output_riverobs args.outputDir annFile)
       (pyReplace (output_riverobs args.outputDir annFile) ".nc" "_reach.shp"),
     Event.shpExport (output_pixcvec args.outputDir annFile)
       (pyReplace (output_pixcvec args.outputDir annFile) ".nc" ".shp")]

/-- The part of an iteration after the gdem branch (lines 257-368): run the
extraction command (raising on a nonzero exit), then export shapefiles and
write the chained annotation file. -/
def afterGdem (env : Env) (args : Args) (annFile : String) (gdemEvents : List Event)
    (gdemPixc : Option String) (pvGdem : Option String) : List Event × Signal :=
  let cmd := extraction_cmd env args annFile
  match execute (env.returncode cmd) cmd with
  | Except.error e => (gdemEvents ++ [Event.runExtraction cmd], Signal.raised e)
  | Except.ok _ =>
      (gdemEvents ++ [Event.runExtraction cmd] ++ shp_events args annFile
        ++ [Event.annWrite (river_ann_file args.outputDir annFile)
              (write_annotation_file (env.l2pixcFile annFile) gdemPixc
                (output_pixcvec args.outputDir annFile) pvGdem)],
       Signal.next)

/-- One iteration of `main`'s loop over descriptor files (lines 166-368).
With `--nogdem` the skip gate may end `main` (`return`); without it the
same gate runs, then `make_pixc_from_gdem` is invoked with
`subsample_factor=2` and the gdem paths are threaded to the annotation
write. -/
def processJob (env : Env) (args : Args) (annFile : String) : List Event × Signal :=
  if args.nogdem then
    if skip_check env args annFile then
      ([Event.info "--> Output files already exist; EXIT"], Signal.ret)
    else
      afterGdem env args annFile [] none none
  else
    if skip_check env args annFile then
      ([Event.info "--> Output files already exist; EXIT"], Signal.ret)
    else
      let gdemPixc := gdem_pixc_path args.outputDir annFile
      afterGdem env args annFile
        [Event.makeGdemPixc (env.trueGdemFile annFile) (env.l2pixcFile annFile) gdemPixc 2]
        (some gdemPixc)
        (some (output_pixcvec_gdem args.outputDir annFile))

/-- The loop of `main` over the discovered descriptor files: `Signal.next`
continues, `Signal.ret` ends the loop normally (Python `return`), and
`Signal.raised` aborts the run with the uncaught exception. -/
def runJobs (env : Env) (args : Args) : List String → List Event × Option CalledProcessError
  | [] => ([], none)
  | f :: fs =>
    match processJob env args f with
    | (evs, Signal.next) =>
        let r := runJobs env args fs
        (evs ++ r.1, r.2)
    | (evs, Signal.ret) => (evs, none)
    | (evs, Signal.raised e) => (evs, some e)

/-! ### Claim theorems -/

/-- The concrete 4×3 grid of claim C2.  The elevation, latitude, longitude
and cross-track values are arbitrary; the claim only constrains the shape,
the landtype pattern and the subsample factor. -/
def gC2 : GdemData :=
  { landtype := [[0, 1, 0], [1, 1, 0], [0, 0, 1], [1, 0, 0]]
    elevation := [[11, 12, 13], [21, 22, 23], [31, 32, 33], [41, 42, 43]]
    latitude := [[1, 1, 1], [2, 2, 2], [3, 3, 3], [4, 4, 4]]
    longitude := [[5, 6, 7], [5, 6, 7], [5, 6, 7], [5, 6, 7]]
    crossTrack := [100, 200, 300]
    groundSpacing := 10
    azimuthSpacing := 20 }

/-- C2: on the 4×3 grid with
`landtype = [[0,1,0],[1,1,0],[0,0,1],[1,0,0]]` and `subsample_factor = 2`,
the decimated grid keeps rows 0 and 2 (`[[0,1,0],[0,0,1]]`), the water
mask selects exactly (row 0, col 1) and (row 1, col 2), and the output
cloud has N = 2 with `range_index = [1,2]`, `azimuth_index = [0,1]` and
`classification = [4,4]` (the interior-water code at both entries). -/
theorem c2_end_to_end_scenario :
    sliceStep 2 gC2.landtype = [[0, 1, 0], [0, 0, 1]] ∧
    (make_pixc_from_gdem gC2 2).rangeIndex = [1, 2] ∧
    (make_pixc_from_gdem gC2 2).azimuthIndex = [0, 1] ∧
    (make_pixc_from_gdem gC2 2).classification = [4, 4] ∧
    (make_pixc_from_gdem gC2 2).height.length = 2 ∧
    (make_pixc_from_gdem gC2 2).latitude.length = 2 := by
  decide

/-- C5: for every input grid and subsample factor, the classification
output is the constant interior-water code 4 and the continuous
classification output is the constant 1.0, whatever the elevation data or
the magnitudes in `landtype` are. -/
theorem c5_classification_remap (g : GdemData) (k : ℕ) :
    (make_pixc_from_gdem g k).classification =
      List.replicate (make_pixc_from_gdem g k).classification.length 4 ∧
    (make_pixc_from_gdem g k).continuousClassification =
      List.replicate (make_pixc_from_gdem g k).continuousClassification.length 1 := by
  constructor
  · rw [List.eq_replicate]
    refine ⟨rfl, ?_⟩
    intro b hb
    simp only [make_pixc_from_gdem, List.mem_map] at hb
    obtain ⟨c, _, rfl⟩ := hb
    ring
  · rw [List.eq_replicate]
    refine ⟨rfl, ?_⟩
    intro b hb
    simp only [make_pixc_from_gdem, List.mem_map] at hb
    obtain ⟨c, _, rfl⟩ := hb
    ring

/-- C6: for every input grid and subsample factor, every entry of the
`pixel_area` output equals `ground_spacing * azimuth_spacing *
subsample_factor`, the same constant across the whole cloud. -/
theorem c6_pixel_area_constant (g : GdemData) (k : ℕ) :
    (make_pixc_from_gdem g k).pixelArea =
      List.replicate (make_pixc_from_gdem g k).pixelArea.length
        (g.groundSpacing * g.azimuthSpacing * (k : ℚ)) := by
  rw [List.eq_replicate]
  refine ⟨rfl, ?_⟩
  intro b hb
  simp only [make_pixc_from_gdem, List.mem_map] at hb
  obtain ⟨c, _, rfl⟩ := hb
  ring

/-- C7: for every grid and `subsample_factor = k ≥ 1`, each decimated
array (`landtype`, `elevation`, `latitude`, `longitude`) has
`⌈A/k⌉ = (A + k - 1) / k` rows, and its row `i` is row `i * k` of the
original array (so each kept row, and with it the column count `R`, is
unchanged). -/
theorem c7_decimation_correct (g : GdemData) (k i : ℕ) (hk : 1 ≤ k) :
    ((sliceStep k g.landtype).length = (g.landtype.length + k - 1) / k ∧
      (sliceStep k g.landtype).get? i = g.landtype.get? (i * k)) ∧
    ((sliceStep k g.elevation).length = (g.elevation.length + k - 1) / k ∧
      (sliceStep k g.elevation).get? i = g.elevation.get? (i * k)) ∧
    ((sliceStep k g.latitude).length = (g.latitude.length + k - 1) / k ∧
      (sliceStep k g.latitude).get? i = g.latitude.get? (i * k)) ∧
    ((sliceStep k g.longitude).length = (g.longitude.length + k - 1) / k ∧
      (sliceStep k g.longitude).get? i = g.longitude.get? (i * k)) := by
  have hlen : ∀ {β : Type} (l : List β), (sliceStep k l).length = (l.length + k - 1) / k := by
    intro β l
    rw [sliceStep, sliceAux_length k hk l 0, Nat.sub_zero]
  have hget : ∀ {β : Type} (l : List β), (sliceStep k l).get? i = l.get? (i * k) := by
    intro β l
    rw [sliceStep, sliceAux_get? k hk l 0 i, Nat.zero_add]
  exact ⟨⟨hlen _, hget _⟩, ⟨hlen _, hget _⟩, ⟨hlen _, hget _⟩, ⟨hlen _, hget _⟩⟩

/-- Witness for C7 at the C2 grid with `k = 2`, `i = 1`. -/
theorem c7_decimation_correct_witness :
    1 ≤ 2 ∧
    (((sliceStep 2 gC2.landtype).length = (gC2.landtype.length + 2 - 1) / 2 ∧
        (sliceStep 2 gC2.landtype).get? 1 = gC2.landtype.get? (1 * 2)) ∧
      ((sliceStep 2 gC2.elevation).length = (gC2.elevation.length + 2 - 1) / 2 ∧
        (sliceStep 2 gC2.elevation).get? 1 = gC2.elevation.get? (1 * 2)) ∧
      ((sliceStep 2 gC2.latitude).length = (gC2.latitude.length + 2 - 1) / 2 ∧
        (sliceStep 2 gC2.latitude).get? 1 = gC2.latitude.get? (1 * 2)) ∧
      ((sliceStep 2 gC2.longitude).length = (gC2.longitude.length + 2 - 1) / 2 ∧
        (sliceStep 2 gC2.longitude).get? 1 = gC2.longitude.get? (1 * 2))) :=
  ⟨by decide, c7_decimation_correct gC2 2 1 (by decide)⟩

/-- C3: for every well-formed input grid (co-registered `A×R` arrays and a
length-`R` cross-track vector) and every subsample factor, all eleven
per-pixel output arrays of the converter have the same length
`N = waterCount (decimated landtype)`, the number of decimated cells whose
landtype is the water class; `N = 0` yields a valid all-empty cloud. -/
theorem c3_per_pixel_lengths (g : GdemData) (k R : ℕ)
    (hR : ∀ row ∈ g.landtype, row.length = R)
    (hRe : ∀ row ∈ g.elevation, row.length = R)
    (hRla : ∀ row ∈ g.latitude, row.length = R)
    (hRlo : ∀ row ∈ g.longitude, row.length = R)
    (hct : g.crossTrack.length = R)
    (hAe : g.elevation.length = g.landtype.length)
    (hAla : g.latitude.length = g.landtype.length)
    (hAlo : g.longitude.length = g.landtype.length) :
    (make_pixc_from_gdem g k).classification.length = waterCount (sliceStep k g.landtype) ∧
    (make_pixc_from_gdem g k).continuousClassification.length
      = waterCount (sliceStep k g.landtype) ∧
    (make_pixc_from_gdem g k).height.length = waterCount (sliceStep k g.landtype) ∧
    (make_pixc_from_gdem g k).latitude.length = waterCount (sliceStep k g.landtype) ∧
    (make_pixc_from_gdem g k).longitude.length = waterCount (sliceStep k g.landtype) ∧
    (make_pixc_from_gdem g k).pixelArea.length = waterCount (sliceStep k g.landtype) ∧
    (make_pixc_from_gdem g k).crossTrack.length = waterCount (sliceStep k g.landtype) ∧
    (make_pixc_from_gdem g k).rangeIndex.length = waterCount (sliceStep k g.landtype) ∧
    (make_pixc_from_gdem g k).azimuthIndex.length = waterCount (sliceStep k g.landtype) ∧
    (make_pixc_from_gdem g k).illuminationTime.length = waterCount (sliceStep k g.landtype) ∧
    (make_pixc_from_gdem g k).numRareLooks.length = waterCount (sliceStep k g.landtype) := by
  have hdR : ∀ row ∈ sliceStep k g.landtype, row.length = R :=
    fun row h => hR row (mem_sliceAux k 0 _ h)
  have hdRe : ∀ row ∈ sliceStep k g.elevation, row.length = R :=
    fun row h => hRe row (mem_sliceAux k 0 _ h)
  have hdRla : ∀ row ∈ sliceStep k g.latitude, row.length = R :=
    fun row h => hRla row (mem_sliceAux k 0 _ h)
  have hdRlo : ∀ row ∈ sliceStep k g.longitude, row.length = R :=
    fun row h => hRlo row (mem_sliceAux k 0 _ h)
  have core : ∀ {β : Type} (arr : List (List β)),
      arr.length = (sliceStep k g.landtype).length →
      (∀ row ∈ arr, R ≤ row.length) →
      (maskSel (sliceStep k g.landtype) arr).length = waterCount (sliceStep k g.landtype) :=
    fun arr hl hr => maskSel_length _ arr R hl.symm hdR hr
  have hself : (maskSel (sliceStep k g.landtype) (sliceStep k g.landtype)).length
      = waterCount (sliceStep k g.landtype) :=
    core _ rfl (fun row h => (hdR row h).ge)
  have hElev : (maskSel (sliceStep k g.landtype) (sliceStep k g.elevation)).length
      = waterCount (sliceStep k g.landtype) :=
    core _ (sliceAux_length_eq k hAe 0) (fun row h => (hdRe row h).ge)
  have hLat : (maskSel (sliceStep k g.landtype) (sliceStep k g.latitude)).length
      = waterCount (sliceStep k g.landtype) :=
    core _ (sliceAux_length_eq k hAla 0) (fun row h => (hdRla row h).ge)
  have hLon : (maskSel (sliceStep k g.landtype) (sliceStep k g.longitude)).length
      = waterCount (sliceStep k g.landtype) :=
    core _ (sliceAux_length_eq k hAlo 0) (fun row h => (hdRlo row h).ge)
  have hRange : (maskSel (sliceStep k g.landtype)
      ((List.range (sliceStep k g.landtype).length).map
        (fun _ => List.range ((sliceStep k g.landtype).headD []).length))).length
      = waterCount (sliceStep k g.landtype) := by
    refine core _ (by rw [List.length_map, List.length_range]) ?_
    intro row hrow
    rw [List.mem_map] at hrow
    obtain ⟨a, ha, rfl⟩ := hrow
    rw [List.mem_range] at ha
    rw [List.length_range]
    cases hD : sliceStep k g.landtype with
    | nil => rw [hD] at ha; simp at ha
    | cons r rs =>
        have hr : r ∈ sliceStep k g.landtype := by
          rw [hD]; exact List.mem_cons_self _ _
        rw [List.headD_cons]
        exact (hdR r hr).ge
  have hAz : (maskSel (sliceStep k g.landtype)
      ((List.range (sliceStep k g.landtype).length).map
        (fun a => g.crossTrack.map (fun _ => a)))).length
      = waterCount (sliceStep k g.landtype) := by
    refine core _ (by rw [List.length_map, List.length_range]) ?_
    intro row hrow
    rw [List.mem_map] at hrow
    obtain ⟨a, _, rfl⟩ := hrow
    rw [List.length_map, hct]
  have hCt : (maskSel (sliceStep k g.landtype)
      ((List.range (sliceStep k g.landtype).length).map
        (fun _ => g.crossTrack))).length
      = waterCount (sliceStep k g.landtype) := by
    refine core _ (by rw [List.length_map, List.length_range]) ?_
    intro row hrow
    rw [List.mem_map] at hrow
    obtain ⟨a, _, rfl⟩ := hrow
    rw [hct]
  refine ⟨?_, ?_, ?_, ?_, ?_, ?_, ?_, ?_, ?_, ?_, ?_⟩ <;>
    simp only [make_pixc_from_gdem, List.length_map]
  · exact hself
  · exact hself
  · exact hElev
  · exact hLat
  · exact hLon
  · exact hLat
  · exact hCt
  · exact hRange
  · exact hAz
  · exact hAz
  · exact hAz

/-- Witness for C3 at the concrete C2-style grid (`R = 3`, `k = 2`). -/
theorem c3_per_pixel_lengths_witness :
    (∀ row ∈ gC2.landtype, row.length = 3) ∧
    (∀ row ∈ gC2.elevation, row.length = 3) ∧
    (∀ row ∈ gC2.latitude, row.length = 3) ∧
    (∀ row ∈ gC2.longitude, row.length = 3) ∧
    gC2.crossTrack.length = 3 ∧
    gC2.elevation.length = gC2.landtype.length ∧
    gC2.latitude.length = gC2.landtype.length ∧
    gC2.longitude.length = gC2.landtype.length ∧
    ((make_pixc_from_gdem gC2 2).classification.length
        = waterCount (sliceStep 2 gC2.landtype) ∧
      (make_pixc_from_gdem gC2 2).continuousClassification.length
        = waterCount (sliceStep 2 gC2.landtype) ∧
      (make_pixc_from_gdem gC2 2).height.length = waterCount (sliceStep 2 gC2.landtype) ∧
      (make_pixc_from_gdem gC2 2).latitude.length = waterCount (sliceStep 2 gC2.landtype) ∧
      (make_pixc_from_gdem gC2 2).longitude.length = waterCount (sliceStep 2 gC2.landtype) ∧
      (make_pixc_from_gdem gC2 2).pixelArea.length = waterCount (sliceStep 2 gC2.landtype) ∧
      (make_pixc_from_gdem gC2 2).crossTrack.length = waterCount (sliceStep 2 gC2.landtype) ∧
      (make_pixc_from_gdem gC2 2).rangeIndex.length = waterCount (sliceStep 2 gC2.landtype) ∧
      (make_pixc_from_gdem gC2 2).azimuthIndex.length
        = waterCount (sliceStep 2 gC2.landtype) ∧
      (make_pixc_from_gdem gC2 2).illuminationTime.length
        = waterCount (sliceStep 2 gC2.landtype) ∧
      (make_pixc_from_gdem gC2 2).numRareLooks.length
        = waterCount (sliceStep 2 gC2.landtype)) :=
  ⟨by decide, by decide, by decide, by decide, by decide, by decide, by decide, by decide,
    c3_per_pixel_lengths gC2 2 3 (by decide) (by decide) (by decide) (by decide)
      (by decide) (by decide) (by decide) (by decide)⟩

/-- C9: the annotation writer outputs exactly the lines `pixc file = …`,
`gdem pixc file = …` and `pixcvec file = …` in that order — the
`gdem pixc file` line is written even when no reference cloud was produced
(`None` is printed) — and a fourth line `pixcvec file from gdem = …`
exactly when a reference-branch vector path was supplied. -/
theorem c9_ann_file_lines (pixcFile : String) (gdemPixc : Option String)
    (pixcvecFile : String) (pixcvecFileGdem : Option String) :
    (write_annotation_file pixcFile gdemPixc pixcvecFile pixcvecFileGdem).get? 0
        = some ("pixc file = " ++ pixcFile) ∧
    (write_annotation_file pixcFile gdemPixc pixcvecFile pixcvecFileGdem).get? 1
        = some ("gdem pixc file = " ++ pyFmt gdemPixc) ∧
    (write_annotation_file pixcFile gdemPixc pixcvecFile pixcvecFileGdem).get? 2
        = some ("pixcvec file = " ++ pixcvecFile) ∧
    (write_annotation_file pixcFile gdemPixc pixcvecFile pixcvecFileGdem).get? 3
        = pixcvecFileGdem.map (fun s => "pixcvec file from gdem = " ++ s) ∧
    (write_annotation_file pixcFile gdemPixc pixcvecFile pixcvecFileGdem).length
        = 3 + (match pixcvecFileGdem with | none => 0 | some _ => 1) := by
  cases pixcvecFileGdem <;>
    simp [write_annotation_file, List.get?]

/-- C8: for a descriptor file whose base name (before the first dot) splits
on underscores into cycle at position 2, orbit at position 3 and tile id at
position 4, the derived outputs are `rivertile_<c>_<o>_<t>.nc` and
`pixcvec_<c>_<o>_<t>.nc` under the observed-branch directory
`<output_dir>/pixc`, and the synthetic reference cloud is
`pixel_cloud_gdem<c>-<o>_<t>.nc` under the reference-branch directory
`<output_dir>/gdem`. -/
theorem c8_naming_determinism (outputDir annFile c o t : String)
    (h2 : (stemParts annFile).get? 2 = some c)
    (h3 : (stemParts annFile).get? 3 = some o)
    (h4 : (stemParts annFile).get? 4 = some t) :
    output_riverobs outputDir annFile
        = pyJoin (river_dir outputDir) ("rivertile_" ++ c ++ "_" ++ o ++ "_" ++ t ++ ".nc") ∧
    output_pixcvec outputDir annFile
        = pyJoin (river_dir outputDir) ("pixcvec_" ++ c ++ "_" ++ o ++ "_" ++ t ++ ".nc") ∧
    gdem_pixc_path outputDir annFile
        = pyJoin (river_dir_gdem outputDir)
            ("pixel_cloud_gdem" ++ c ++ "-" ++ o ++ "_" ++ t ++ ".nc") := by
  have hc : num_cycle annFile = c := by
    rw [num_cycle, List.getD_eq_getD_get?, h2]; rfl
  have ho : num_orbit annFile = o := by
    rw [num_orbit, List.getD_eq_getD_get?, h3]; rfl
  have ht : lat_tile annFile = t := by
    rw [lat_tile, List.getD_eq_getD_get?, h4]; rfl
  refine ⟨?_, ?_, ?_⟩ <;>
    simp only [output_riverobs, output_pixcvec, gdem_pixc_path, tile_tag, hc, ho, ht,
      String.append_assoc]

/-- Witness for C8 at a concretely named descriptor file. -/
theorem c8_naming_determinism_witness :
    (stemParts "data/pixc_ann_001_023_45N.rdf").get? 2 = some "001" ∧
    (stemParts "data/pixc_ann_001_023_45N.rdf").get? 3 = some "023" ∧
    (stemParts "data/pixc_ann_001_023_45N.rdf").get? 4 = some "45N" ∧
    (output_riverobs "out" "data/pixc_ann_001_023_45N.rdf"
        = pyJoin (river_dir "out") ("rivertile_" ++ "001" ++ "_" ++ "023" ++ "_" ++ "45N" ++ ".nc") ∧
      output_pixcvec "out" "data/pixc_ann_001_023_45N.rdf"
        = pyJoin (river_dir "out") ("pixcvec_" ++ "001" ++ "_" ++ "023" ++ "_" ++ "45N" ++ ".nc") ∧
      gdem_pixc_path "out" "data/pixc_ann_001_023_45N.rdf"
        = pyJoin (river_dir_gdem "out")
            ("pixel_cloud_gdem" ++ "001" ++ "-" ++ "023" ++ "_" ++ "45N" ++ ".nc")) :=
  ⟨by decide, by decide, by decide,
    c8_naming_determinism "out" "data/pixc_ann_001_023_45N.rdf" "001" "023" "45N"
      (by decide) (by decide) (by decide)⟩

/-- A world in which every file exists (so the idempotency gate fires). -/
def envC1 : Env :=
  { isfile := fun _ => true
    returncode := fun _ => 0
    l2pixcFile := fun _ => "l2pixc.nc"
    trueGdemFile := fun _ => "gdem.nc"
    riverobsEnvVar := "riverobs" }

def argsC1 : Args :=
  { outputDir := "out"
    parameterRiverobs := "param.rdf"
    riverobsPath := none
    nogdem := false
    noshp := true
    force := false }

/-- Counterexample to C1: with two discovered jobs whose outputs already
exist and `--force` unset, the run produces only the informational skip of
the first job and then stops — the Python `return` at lines 209/219 exits
`main`, so the second job is never processed (no ground-truth synthesis
and no extraction for it), refuting "continues processing the remaining
discovered jobs". -/
theorem c1_counterexample :
    runJobs envC1 argsC1 ["pixc_ann_001_023_45N.rdf", "pixc_ann_002_024_46N.rdf"]
      = ([Event.info "--> Output files already exist; EXIT"], none) ∧
    Event.runExtraction (extraction_cmd envC1 argsC1 "pixc_ann_002_024_46N.rdf")
      ∉ (runJobs envC1 argsC1 ["pixc_ann_001_023_45N.rdf", "pixc_ann_002_024_46N.rdf"]).1 ∧
    Event.makeGdemPixc (envC1.trueGdemFile "pixc_ann_002_024_46N.rdf")
        (envC1.l2pixcFile "pixc_ann_002_024_46N.rdf")
        (gdem_pixc_path argsC1.outputDir "pixc_ann_002_024_46N.rdf") 2
      ∉ (runJobs envC1 argsC1 ["pixc_ann_001_023_45N.rdf", "pixc_ann_002_024_46N.rdf"]).1 := by
  decide

/-- C1 as amended: when `--force` is unset and both observed-branch output
files exist, the job is skipped before any ground-truth synthesis or
extraction and the skip is reported informationally (no error) — but the
orchestrator then ends the whole run, leaving every remaining discovered
job unprocessed, instead of continuing with them. -/
theorem c1_skip_ends_run (env : Env) (args : Args) (f : String) (fs : List String)
    (hforce : args.force = false)
    (h1 : env.isfile (output_riverobs args.outputDir f) = true)
    (h2 : env.isfile (output_pixcvec args.outputDir f) = true) :
    runJobs env args (f :: fs)
      = ([Event.info "--> Output files already exist; EXIT"], none) := by
  have hskip : skip_check env args f = true := by
    simp [skip_check, hforce, h1, h2]
  have hpj : processJob env args f
      = ([Event.info "--> Output files already exist; EXIT"], Signal.ret) := by
    cases hng : args.nogdem <;> simp [processJob, hng, hskip]
  simp [runJobs, hpj]

/-- Witness for the amended C1 on a concrete one-job world. -/
theorem c1_skip_ends_run_witness :
    argsC1.force = false ∧
    envC1.isfile (output_riverobs argsC1.outputDir "pixc_ann_001_023_45N.rdf") = true ∧
    envC1.isfile (output_pixcvec argsC1.outputDir "pixc_ann_001_023_45N.rdf") = true ∧
    runJobs envC1 argsC1 ["pixc_ann_001_023_45N.rdf"]
      = ([Event.info "--> Output files already exist; EXIT"], none) :=
  ⟨rfl, rfl, rfl, c1_skip_ends_run envC1 argsC1 "pixc_ann_001_023_45N.rdf" [] rfl rfl rfl⟩

/-- C4: when the extraction process exits nonzero for a job that passed the
idempotency gate, the run ends with the uncaught `CalledProcessError`
carrying that exit code and the failing command; the job's trace contains
no shapefile export and no annotation write, and no later job contributes
any event (the batch is aborted). -/
theorem c4_extraction_failure_aborts (env : Env) (args : Args) (f : String) (fs : List String)
    (hskip : skip_check env args f = false)
    (hrc : env.returncode (extraction_cmd env args f) ≠ 0) :
    runJobs env args (f :: fs)
      = ((processJob env args f).1,
         some ⟨env.returncode (extraction_cmd env args f), extraction_cmd env args f⟩) ∧
    ∀ e ∈ (processJob env args f).1, e.isShpExport = false ∧ e.isAnnWrite = false := by
  have hexec : execute (env.returncode (extraction_cmd env args f)) (extraction_cmd env args f)
      = Except.error ⟨env.returncode (extraction_cmd env args f), extraction_cmd env args f⟩ := by
    simp [execute, hrc]
  cases hng : args.nogdem with
  | true =>
      have hpj : processJob env args f
          = ([Event.runExtraction (extraction_cmd env args f)],
             Signal.raised
               ⟨env.returncode (extraction_cmd env args f), extraction_cmd env args f⟩) := by
        simp [processJob, hng, hskip, afterGdem, hexec]
      refine ⟨by simp [runJobs, hpj], ?_⟩
      rw [hpj]
      intro e he
      simp only [List.mem_singleton] at he
      subst he
      exact ⟨rfl, rfl⟩
  | false =>
      have hpj : processJob env args f
          = ([Event.makeGdemPixc (env.trueGdemFile f) (env.l2pixcFile f)
                (gdem_pixc_path args.outputDir f) 2,
              Event.runExtraction (extraction_cmd env args f)],
             Signal.raised
               ⟨env.returncode (extraction_cmd env args f), extraction_cmd env args f⟩) := by
        simp [processJob, hng, hskip, afterGdem, hexec]
      refine ⟨by simp [runJobs, hpj], ?_⟩
      rw [hpj]
      intro e he
      simp only [List.mem_cons, List.mem_singleton, List.not_mem_nil, or_false] at he
      rcases he with he | he <;> subst he <;> exact ⟨rfl, rfl⟩

/-- A world in which no output exists yet and the extraction exits with
code 2. -/
def envC4 : Env :=
  { isfile := fun _ => false
    returncode := fun _ => 2
    l2pixcFile := fun _ => "l2pixc.nc"
    trueGdemFile := fun _ => "gdem.nc"
    riverobsEnvVar := "riverobs" }

def argsC4 : Args :=
  { outputDir := "out"
    parameterRiverobs := "param.rdf"
    riverobsPath := none
    nogdem := false
    noshp := false
    force := false }

/-- Witness for C4: a stubbed extraction exiting with code 2 aborts the
batch with a `CalledProcessError` naming exit code 2 and the command. -/
theorem c4_extraction_failure_aborts_witness :
    skip_check envC4 argsC4 "pixc_ann_001_023_45N.rdf" = false ∧
    envC4.returncode (extraction_cmd envC4 argsC4 "pixc_ann_001_023_45N.rdf") ≠ 0 ∧
    (runJobs envC4 argsC4 ["pixc_ann_001_023_45N.rdf", "pixc_ann_002_024_46N.rdf"]
        = ((processJob envC4 argsC4 "pixc_ann_001_023_45N.rdf").1,
           some ⟨envC4.returncode (extraction_cmd envC4 argsC4 "pixc_ann_001_023_45N.rdf"),
                 extraction_cmd envC4 argsC4 "pixc_ann_001_023_45N.rdf"⟩) ∧
      ∀ e ∈ (processJob envC4 argsC4 "pixc_ann_001_023_45N.rdf").1,
        e.isShpExport = false ∧ e.isAnnWrite = false) :=
  ⟨by decide, by decide,
    c4_extraction_failure_aborts envC4 argsC4 "pixc_ann_001_023_45N.rdf"
      ["pixc_ann_002_024_46N.rdf"] (by decide) (by decide)⟩

/-- Every `make_pixc_from_gdem` invocation recorded by one loop iteration
uses subsample factor 2 (the literal at line 228). -/
theorem processJob_gdem_factor (env : Env) (args : Args) (f : String)
    (gf pf out : String) (k : ℕ)
    (h : Event.makeGdemPixc gf pf out k ∈ (processJob env args f).1) : k = 2 := by
  by_cases hng : args.nogdem <;> by_cases hsk : skip_check env args f <;>
    cases hE : execute (env.returncode (extraction_cmd env args f)) (extraction_cmd env args f) <;>
    by_cases hns : args.noshp <;>
    simp [processJob, hng, hsk, afterGdem, hE, shp_events] at h <;>
    simp_all

/-- C10: in every run, with any command-line arguments and any world, every
ground-truth-to-pixel-cloud conversion the orchestrator performs uses the
azimuth subsample factor 2: the call site hard-codes `subsample_factor=2`,
even though `make_pixc_from_gdem` accepts it as a parameter, and no option
or descriptor key feeds it. -/
theorem c10_gdem_subsample_always_two (env : Env) (args : Args) (files : List String)
    (gf pf out : String) (k : ℕ)
    (h : Event.makeGdemPixc gf pf out k ∈ (runJobs env args files).1) : k = 2 := by
  induction files with
  | nil => simp [runJobs] at h
  | cons f fs ih =>
      rcases hpj : processJob env args f with ⟨evs, sig⟩
      cases sig with
      | next =>
          simp only [runJobs, hpj] at h
          rw [List.mem_append] at h
          rcases h with h | h
          · exact processJob_gdem_factor env args f gf pf out k (by rw [hpj]; exact h)
          · exact ih h
      | ret =>
          simp only [runJobs, hpj] at h
          exact processJob_gdem_factor env args f gf pf out k (by rw [hpj]; exact h)
      | raised e =>
          simp only [runJobs, hpj] at h
          exact processJob_gdem_factor env args f gf pf out k (by rw [hpj]; exact h)

/-- Witness for C10: a run that does perform a conversion, and it carries
factor 2. -/
theorem c10_gdem_subsample_always_two_witness :
    Event.makeGdemPixc "gdem.nc" "l2pixc.nc" (gdem_pixc_path "out" "pixc_ann_001_023_45N.rdf") 2
      ∈ (runJobs envC4 argsC1 ["pixc_ann_001_023_45N.rdf"]).1 ∧ (2 : ℕ) = 2 :=
  ⟨by decide,
    c10_gdem_subsample_always_two envC4 argsC1 ["pixc_ann_001_023_45N.rdf"]
      "gdem.nc" "l2pixc.nc" (gdem_pixc_path "out" "pixc_ann_001_023_45N.rdf") 2 (by decide)⟩

end L2PixcToRivertile
